import Mathlib

/-!
Verification development for the usage-metering and job-lifecycle tracking
subsystem of the Server_Audria backend: the billing/subscription engine
(`app/services/billing_service.py` and the CRUD layer it calls), the
in-process job-timeout registry (`app/core/job_timeout.py`), the async
message-persistence queue (`app/core/message_queue.py`) and the streaming
chat session manager (`app/core/websocket_manager.py`).

The Python code is shallowly embedded: database sessions become an explicit
`DB` state record, SQLAlchemy queries become pure functions over the table
lists, Python `datetime` values become an abstract `(year, month, rest)`
triple ordered lexicographically, Python floats become exact rationals, and
each service method becomes a state-passing function returning the new `DB`
together with its response value.
-/

namespace Audria

/-- Abstract model of a Python `datetime`: the calendar year and month are
kept exactly (they drive `strftime "%Y-%m"`), and everything finer (day,
time of day) is collapsed into `rest`, of which only the ordering matters. -/
structure PyDateTime where
  year : Nat
  month : Nat
  rest : Nat
deriving DecidableEq, Repr

/-- Strict lexicographic order on (year, month, rest), the order of the
underlying timestamps. -/
def PyDateTime.ltb (a b : PyDateTime) : Bool :=
  decide (a.year < b.year) ||
    (decide (a.year = b.year) &&
      (decide (a.month < b.month) ||
        (decide (a.month = b.month) && decide (a.rest < b.rest))))

/-- Non-strict counterpart of `PyDateTime.ltb`. -/
def PyDateTime.leb (a b : PyDateTime) : Bool :=
  PyDateTime.ltb a b || decide (a = b)

/-- Model of a Python `date` (used for `start_date` columns). -/
structure PyDate where
  year : Nat
  month : Nat
  day : Nat
deriving DecidableEq, Repr

/-- Floor of a rational as an integer (`Rat.floor`). -/
def ratFloor (q : ℚ) : ℤ := ⌊q⌋

/-- Round a rational to the nearest integer, ties to the even integer.
This is the rounding used by Python's built-in `round`. -/
def roundHalfEven (q : ℚ) : ℤ :=
  let f := ratFloor q
  let frac := q - (f : ℚ)
  if frac < 1/2 then f
  else if 1/2 < frac then f + 1
  else if f % 2 = 0 then f else f + 1

/-- Round a rational to the nearest integer, ties away from zero.
This is the rounding of SQL `round(numeric, n)` applied by
`CRUDUserSubscription.increment_usage`. -/
def roundHalfAway (q : ℚ) : ℤ :=
  if 0 ≤ q then ratFloor (q + 1/2) else -(ratFloor (-q + 1/2))

/-- `round(x, 3)` as used in `BillingService.log_usage` (billing_service.py
line 223): Python float rounding to 3 decimal places, modelled exactly over
the rationals with ties to even. -/
def pyRound3 (q : ℚ) : ℚ := (roundHalfEven (q * 1000) : ℚ) / 1000

/-- `sql_func.round(cast(..., Numeric), 3)` as used in
`CRUDUserSubscription.increment_usage` (user_subscription.py line 62):
SQL numeric rounding to 3 decimal places, ties away from zero. -/
def sqlRound3 (q : ℚ) : ℚ := (roundHalfAway (q * 1000) : ℚ) / 1000

/-- `SubscriptionStatus` enum (models/user_subscription.py lines 7-13). -/
inductive SubscriptionStatus where
  | ACTIVE
  | INACTIVE
  | EXPIRED
  | CANCELED
  | LIMIT_REACHED
deriving DecidableEq, Repr

/-- `FeatureType` enum (models/usage_log.py lines 7-14). -/
inductive FeatureType where
  | INGESTION
  | REVISION
  | ORCHESTRATOR
  | CHAT
  | PRECEDENT_SEARCH
  | PRECEDENT_EMBED
deriving DecidableEq, Repr

/-- `TokenPricing` row (models/token_pricing.py). Primary keys are modelled
as naturals drawn from a per-database counter instead of UUIDs. -/
structure TokenPricing where
  id : Nat
  usd_per_1k_tokens : ℚ
  effective_date : PyDateTime
  is_deleted : Bool
deriving DecidableEq, Repr

/-- `SubscriptionTier` row (models/subscription_tier.py). -/
structure SubscriptionTier where
  id : Nat
  plan_name : String
  token_limit : ℤ
  billing_cycle : String
  stripe_price_id : Option String
  is_deleted : Bool
deriving DecidableEq, Repr

/-- `UserSubscription` row (models/user_subscription.py lines 15-30);
`created_at` comes from the `TimestampMixin`. -/
structure UserSubscription where
  id : Nat
  supabase_user_id : String
  subscription_plan : String
  tokens_consumed : ℤ
  dollar_spent : ℚ
  status : SubscriptionStatus
  billing_period : String
  start_date : PyDate
  stripe_customer_id : Option String
  stripe_subscription_id : Option String
  created_at : PyDateTime
  is_deleted : Bool
deriving DecidableEq, Repr

/-- `UsageLog` row (models/usage_log.py lines 16-35). -/
structure UsageLog where
  id : Nat
  supabase_user_id : String
  feature_used : FeatureType
  tokens_used : ℤ
  dollar_cost : ℚ
  prompt_tokens : Option ℤ
  completion_tokens : Option ℤ
  status : Option String
  latency_ms : Option ℤ
  model_used : Option String
  project_id : Option String
  file_id : Option String
  request_id : Option String
  meta_data : Option String
  is_deleted : Bool
deriving DecidableEq, Repr

/-- The relational state touched by the billing engine: the four tables of
§3 of the data model plus a fresh-id counter standing in for UUID
generation. -/
structure DB where
  token_pricing : List TokenPricing
  subscription_tiers : List SubscriptionTier
  user_subscriptions : List UserSubscription
  usage_log : List UsageLog
  next_id : Nat
deriving DecidableEq, Repr

/-- SQLAlchemy `scalar_one_or_none` on a result set expected to hold at most
one row: `none` for an empty result, the row for a singleton.  (On several
rows SQLAlchemy raises; the queries below use it only under the schema's
uniqueness conventions, and the embedding returns `none` there.) -/
def scalarOneOrNone {α : Type} : List α → Option α
  | [a] => some a
  | _ => none

/-- `ORDER BY f DESC LIMIT 1` followed by `scalar_one_or_none`: an element
of the list whose key is maximal (the first such element when keys tie). -/
def pickLatest {α : Type} (f : α → PyDateTime) (l : List α) : Option α :=
  l.foldl
    (fun acc x =>
      match acc with
      | none => some x
      | some m => if PyDateTime.ltb (f m) (f x) then some x else some m)
    none

/-- `CRUDTokenPricing.get_current_pricing` (crud/token_pricing.py lines
12-25): the most recent non-deleted pricing row whose `effective_date` is
at or before `now`. -/
def get_current_pricing (db : DB) (now : PyDateTime) : Option TokenPricing :=
  pickLatest (fun p => p.effective_date)
    (db.token_pricing.filter
      (fun p => !p.is_deleted && PyDateTime.leb p.effective_date now))

/-- `CRUDSubscriptionTier.get_by_plan_name` (crud/subscription_tier.py lines
11-21); `plan_name` is unique in the schema. -/
def get_by_plan_name (db : DB) (plan_name : String) : Option SubscriptionTier :=
  scalarOneOrNone
    (db.subscription_tiers.filter
      (fun t => decide (t.plan_name = plan_name) && !t.is_deleted))

/-- `CRUDUserSubscription.get_by_user_id_and_period` (crud/user_subscription.py
lines 11-27). -/
def get_by_user_id_and_period (db : DB) (user_id billing_period : String) :
    Option UserSubscription :=
  scalarOneOrNone
    (db.user_subscriptions.filter
      (fun s => decide (s.supabase_user_id = user_id) &&
        decide (s.billing_period = billing_period) && !s.is_deleted))

/-- `CRUDUserSubscription.get_active_subscription` (crud/user_subscription.py
lines 29-47): latest-created non-deleted row whose status is ACTIVE or
LIMIT_REACHED. -/
def get_active_subscription (db : DB) (user_id : String) :
    Option UserSubscription :=
  pickLatest (fun s => s.created_at)
    (db.user_subscriptions.filter
      (fun s => decide (s.supabase_user_id = user_id) &&
        (decide (s.status = SubscriptionStatus.ACTIVE) ||
          decide (s.status = SubscriptionStatus.LIMIT_REACHED)) &&
        !s.is_deleted))

/-- `CRUDUserSubscription.increment_usage` (crud/user_subscription.py lines
49-67): one atomic relational UPDATE adding `tokens` to `tokens_consumed`
and `cost` to `dollar_spent` (the sum re-rounded to 3 decimals by SQL
`round`), returning the updated row. -/
def increment_usage (db : DB) (subscription_id : Nat) (tokens : ℤ) (cost : ℚ) :
    DB × Option UserSubscription :=
  let upd := fun (r : UserSubscription) =>
    if r.id = subscription_id then
      { r with
        tokens_consumed := r.tokens_consumed + tokens
        dollar_spent := sqlRound3 (r.dollar_spent + cost) }
    else r
  let rows := db.user_subscriptions.map upd
  ({ db with user_subscriptions := rows },
    scalarOneOrNone (rows.filter (fun r => decide (r.id = subscription_id))))

/-- `CRUDUserSubscription.update_status` (crud/user_subscription.py lines
69-82): UPDATE of the row's status, returning whether a row was affected. -/
def update_status (db : DB) (subscription_id : Nat)
    (status : SubscriptionStatus) : DB × Bool :=
  let rows := db.user_subscriptions.map
    (fun r => if r.id = subscription_id then { r with status := status } else r)
  ({ db with user_subscriptions := rows },
    0 < (db.user_subscriptions.filter (fun r => decide (r.id = subscription_id))).length)

/-- `CRUDUsageLog.exists_by_request_id` (crud/usage_log.py lines 12-31):
count of non-deleted usage rows matching (user, feature, request_id), empty
request ids never matching. -/
def exists_by_request_id (db : DB) (user_id : String) (feature_type : FeatureType)
    (request_id : String) : Bool :=
  if request_id = "" then false
  else
    0 < (db.usage_log.filter
      (fun l => decide (l.supabase_user_id = user_id) &&
        decide (l.feature_used = feature_type) &&
        decide (l.request_id = some request_id) && !l.is_deleted)).length

/-- Python `or` on an optional string: falsy values (None and the empty
string) fall through to the right operand. -/
def pyOrStr (a b : Option String) : Option String :=
  match a with
  | some s => if s = "" then b else some s
  | none => b

/-- Zero-pad a month number to two digits, as `strftime "%m"` does. -/
def padMonth (m : Nat) : String :=
  if m < 10 then "0" ++ toString m else toString m

/-- `BillingService.get_current_billing_period` (billing_service.py lines
31-35): the current UTC date rendered as "YYYY-MM". -/
def get_current_billing_period (now : PyDateTime) : String :=
  toString now.year ++ "-" ++ padMonth now.month

/-- `map(int, billing_period.split("-"))` — parse "YYYY-MM" back into the
year/month pair (Python raises on malformed input; the embedding returns 0
components there, and the services only feed it strings they formatted). -/
def parseBillingPeriod (s : String) : Nat × Nat :=
  match (s.splitOn "-").map (fun t => t.toNat?.getD 0) with
  | [y, m] => (y, m)
  | _ => (0, 0)

/-- `BillingService.get_billing_period_start_date` (billing_service.py lines
37-41): the first day of the billing period. -/
def get_billing_period_start_date (billing_period : String) : PyDate :=
  let p := parseBillingPeriod billing_period
  ⟨p.1, p.2, 1⟩

/-- `CRUDBase.create` applied to a `UserSubscriptionCreate`
(billing_service.py lines 85-95, schemas/billing.py lines 81-87): fields not
in the create schema take the model's column defaults — `tokens_consumed` 0,
`dollar_spent` 0, status ACTIVE, `created_at` now. -/
def user_subscription_create (db : DB) (now : PyDateTime)
    (supabase_user_id subscription_plan billing_period : String)
    (start_date : PyDate)
    (stripe_customer_id stripe_subscription_id : Option String) :
    DB × UserSubscription :=
  let row : UserSubscription :=
    { id := db.next_id
      supabase_user_id := supabase_user_id
      subscription_plan := subscription_plan
      tokens_consumed := 0
      dollar_spent := 0
      status := SubscriptionStatus.ACTIVE
      billing_period := billing_period
      start_date := start_date
      stripe_customer_id := stripe_customer_id
      stripe_subscription_id := stripe_subscription_id
      created_at := now
      is_deleted := false }
  ({ db with
      user_subscriptions := db.user_subscriptions ++ [row]
      next_id := db.next_id + 1 },
    row)

/-- `BillingService.get_or_create_user_subscription` (billing_service.py
lines 50-97): return the account row for (user, current period), creating it
if absent — carrying the plan and external refs forward from the most recent
active-or-limit-reached row, defaulting to `default_plan`. -/
def get_or_create_user_subscription (db : DB) (now : PyDateTime)
    (user_id : String) (default_plan : String := "Free")
    (stripe_customer_id : Option String := none)
    (stripe_subscription_id : Option String := none) :
    DB × UserSubscription × Bool :=
  let billing_period := get_current_billing_period now
  match get_by_user_id_and_period db user_id billing_period with
  | some existing => (db, existing, false)
  | none =>
    let prev := get_active_subscription db user_id
    let plan_name :=
      match prev with
      | some p => p.subscription_plan
      | none => default_plan
    let cust :=
      match prev with
      | some p => pyOrStr stripe_customer_id p.stripe_customer_id
      | none => stripe_customer_id
    let subr :=
      match prev with
      | some p => pyOrStr stripe_subscription_id p.stripe_subscription_id
      | none => stripe_subscription_id
    let start_date := get_billing_period_start_date billing_period
    let created := user_subscription_create db now user_id plan_name
      billing_period start_date cust subr
    (created.1, created.2, true)

/-- `CheckSubscriptionResponse` (schemas/billing.py lines 148-154); the
subscription and tier echoes carry the looked-up rows. -/
structure CheckSubscriptionResponse where
  success : Bool
  allowed : Bool
  message : String
  subscription : Option UserSubscription
  tier : Option SubscriptionTier
  tokens_remaining : Option ℤ
deriving DecidableEq, Repr

/-- `BillingService.check_subscription_limit` (billing_service.py lines
99-188): admission check against the account's status and tier limit.  The
estimated-token pre-check is commented out in the source (lines 169-178) and
so absent here. -/
def check_subscription_limit (db : DB) (now : PyDateTime) (user_id : String)
    (_feature_type : FeatureType) (_estimated_tokens : Option ℤ := none) :
    DB × CheckSubscriptionResponse :=
  let gc := get_or_create_user_subscription db now user_id
  let db1 := gc.1
  let subscription := gc.2.1
  match get_by_plan_name db1 subscription.subscription_plan with
  | none =>
    (db1,
      { success := false, allowed := false
        message := "Subscription tier " ++ subscription.subscription_plan ++ " not found"
        subscription := none, tier := none, tokens_remaining := none })
  | some tier =>
    if subscription.status = SubscriptionStatus.EXPIRED then
      (db1,
        { success := true, allowed := false
          message := "Subscription has expired"
          subscription := some subscription, tier := some tier
          tokens_remaining := some 0 })
    else if subscription.status = SubscriptionStatus.CANCELED then
      (db1,
        { success := true, allowed := false
          message := "Subscription has been canceled"
          subscription := some subscription, tier := some tier
          tokens_remaining := some 0 })
    else if subscription.status = SubscriptionStatus.INACTIVE then
      (db1,
        { success := true, allowed := false
          message := "Subscription is inactive"
          subscription := some subscription, tier := some tier
          tokens_remaining := some 0 })
    else
      let tokens_remaining := tier.token_limit - subscription.tokens_consumed
      if subscription.status = SubscriptionStatus.LIMIT_REACHED then
        (db1,
          { success := true, allowed := false
            message := "Token limit reached for this billing period"
            subscription := some subscription, tier := some tier
            tokens_remaining := some 0 })
      else
        (db1,
          { success := true, allowed := true
            message := "Request allowed"
            subscription := some subscription, tier := some tier
            tokens_remaining := some tokens_remaining })

/-- `LogUsageResponse` (schemas/billing.py lines 162-167). -/
structure LogUsageResponse where
  success : Bool
  message : String
  usage_log : Option UsageLog
  subscription : Option UserSubscription
  limit_reached : Bool
deriving DecidableEq, Repr

/-- `model_used or "UNKNOWN"` (billing_service.py line 237). -/
def modelUsedOrUnknown (model_used : Option String) : String :=
  match pyOrStr model_used (some "UNKNOWN") with
  | some s => s
  | none => "UNKNOWN"

/-- `CRUDBase.create` applied to a `UsageLogCreate` built by `log_usage`
(billing_service.py lines 226-243). -/
def usage_log_create (db : DB) (user_id : String) (feature_type : FeatureType)
    (tokens_used : ℤ) (dollar_cost : ℚ)
    (request_id meta_data : Option String) (latency_ms : Option ℤ)
    (model_used project_id file_id : Option String)
    (prompt_tokens completion_tokens : Option ℤ) (status : Option String) :
    DB × UsageLog :=
  let row : UsageLog :=
    { id := db.next_id
      supabase_user_id := user_id
      feature_used := feature_type
      tokens_used := tokens_used
      dollar_cost := dollar_cost
      prompt_tokens := prompt_tokens
      completion_tokens := completion_tokens
      status := status
      latency_ms := latency_ms
      model_used := some (modelUsedOrUnknown model_used)
      project_id := project_id
      file_id := file_id
      request_id := request_id
      meta_data := meta_data
      is_deleted := false }
  ({ db with usage_log := db.usage_log ++ [row], next_id := db.next_id + 1 },
    row)

/-- `BillingService.log_usage` (billing_service.py lines 190-285): fetch
current pricing (soft-failing when none), compute the 3-decimal dollar cost,
insert the usage-log entry, get-or-create the account, atomically increment
its counters, and flip the status to LIMIT_REACHED when the new consumption
reaches the tier limit. -/
def log_usage (db : DB) (now : PyDateTime) (user_id : String)
    (feature_type : FeatureType) (tokens_used : ℤ)
    (request_id : Option String := none) (meta_data : Option String := none)
    (latency_ms : Option ℤ := none) (model_used : Option String := none)
    (project_id : Option String := none) (file_id : Option String := none)
    (prompt_tokens : Option ℤ := none) (completion_tokens : Option ℤ := none)
    (status : Option String := none) :
    DB × LogUsageResponse :=
  match get_current_pricing db now with
  | none =>
    (db,
      { success := false, message := "Token pricing not configured"
        usage_log := none, subscription := none, limit_reached := false })
  | some pricing =>
    let dollar_cost := pyRound3 ((tokens_used : ℚ) / 1000 * pricing.usd_per_1k_tokens)
    let cr := usage_log_create db user_id feature_type tokens_used dollar_cost
      request_id meta_data latency_ms model_used project_id file_id
      prompt_tokens completion_tokens status
    let db1 := cr.1
    let usage_log_entry := cr.2
    let gc := get_or_create_user_subscription db1 now user_id
    let db2 := gc.1
    let subscription := gc.2.1
    let inc := increment_usage db2 subscription.id tokens_used dollar_cost
    let db3 := inc.1
    match inc.2 with
    | none =>
      (db3,
        { success := false, message := "Failed to update subscription"
          usage_log := some usage_log_entry, subscription := none
          limit_reached := false })
    | some updated_subscription =>
      match get_by_plan_name db3 updated_subscription.subscription_plan with
      | some tier =>
        if tier.token_limit ≤ updated_subscription.tokens_consumed then
          let us := update_status db3 updated_subscription.id
            SubscriptionStatus.LIMIT_REACHED
          (us.1,
            { success := true, message := "Usage logged successfully"
              usage_log := some usage_log_entry
              subscription := some
                { updated_subscription with status := SubscriptionStatus.LIMIT_REACHED }
              limit_reached := true })
        else
          (db3,
            { success := true, message := "Usage logged successfully"
              usage_log := some usage_log_entry
              subscription := some updated_subscription
              limit_reached := false })
      | none =>
        (db3,
          { success := true, message := "Usage logged successfully"
            usage_log := some usage_log_entry
            subscription := some updated_subscription
            limit_reached := false })

/-- The idempotency guard wrapped around `log_usage` at the guarded
external-job call sites — orchestrator completion (routers/orchestrator.py
line 249), precedent-embed completion (routers/precedents.py line 230), and
the timeout paths of ingestion/orchestrator/precedent polling
(routers/ingestion.py line 159, routers/orchestrator.py line 183,
routers/precedents.py line 191): check `exists_by_request_id` and skip the
write when the entry already exists.  Not every caller uses it: the
ingestion *completed* branch (routers/ingestion.py lines 193-225) calls
`log_usage` with `request_id = job_id` unguarded. -/
def guarded_log_usage (db : DB) (now : PyDateTime) (user_id : String)
    (feature_type : FeatureType) (tokens_used : ℤ) (request_id : String) :
    DB × Option LogUsageResponse :=
  if exists_by_request_id db user_id feature_type request_id then (db, none)
  else
    let r := log_usage db now user_id feature_type tokens_used (some request_id)
    (r.1, some r.2)

/-- Number of non-deleted usage-log rows carrying a given
(user, feature, request_id) triple — the row count the idempotency claims
speak about. -/
def count_usage_entries (db : DB) (user_id : String) (feature_type : FeatureType)
    (request_id : String) : Nat :=
  (db.usage_log.filter
    (fun l => decide (l.supabase_user_id = user_id) &&
      decide (l.feature_used = feature_type) &&
      decide (l.request_id = some request_id) && !l.is_deleted)).length

/-- `JobTimeoutEntry` (job_timeout.py lines 9-18); the monotonic clock is a
rational, the wall-clock `started_at` field is dropped (never read by the
registry's operations). -/
structure JobTimeoutEntry where
  category : String
  job_id : String
  timeout_seconds : ℤ
  started_monotonic : ℚ
  project_id : Option String
  file_id : Option String
deriving DecidableEq, Repr

/-- `JobTimeoutRegistry` (job_timeout.py lines 21-80): a dictionary keyed by
(category, job_id), modelled as an association list. -/
structure JobTimeoutRegistry where
  entries : List ((String × String) × JobTimeoutEntry)
deriving DecidableEq, Repr

/-- Dictionary lookup `self._entries.get((category, job_id))`. -/
def JobTimeoutRegistry.lookup (reg : JobTimeoutRegistry)
    (category job_id : String) : Option JobTimeoutEntry :=
  match reg.entries.find? (fun e => decide (e.1 = (category, job_id))) with
  | some e => some e.2
  | none => none

/-- `JobTimeoutRegistry.register_job` (job_timeout.py lines 31-43): first
registration wins; re-registration of a present key is a no-op. -/
def register_job (reg : JobTimeoutRegistry) (nowMono : ℚ)
    (category job_id : String) (timeout_seconds : ℤ)
    (project_id : Option String := none) (file_id : Option String := none) :
    JobTimeoutRegistry :=
  match reg.lookup category job_id with
  | some _ => reg
  | none =>
    { entries := reg.entries ++
        [((category, job_id),
          { category := category, job_id := job_id
            timeout_seconds := timeout_seconds
            started_monotonic := nowMono
            project_id := project_id, file_id := file_id })] }

/-- `JobTimeoutRegistry.get_entry` (job_timeout.py lines 45-46). -/
def get_entry (reg : JobTimeoutRegistry) (category job_id : String) :
    Option JobTimeoutEntry :=
  reg.lookup category job_id

/-- `JobTimeoutRegistry.seconds_elapsed` (job_timeout.py lines 48-52). -/
def seconds_elapsed (reg : JobTimeoutRegistry) (nowMono : ℚ)
    (category job_id : String) : Option ℚ :=
  match get_entry reg category job_id with
  | none => none
  | some e => some (max 0 (nowMono - e.started_monotonic))

/-- `JobTimeoutRegistry.is_timed_out` (job_timeout.py lines 61-66): false
for unknown jobs, otherwise monotonic elapsed at or beyond the budget. -/
def is_timed_out (reg : JobTimeoutRegistry) (nowMono : ℚ)
    (category job_id : String) : Bool :=
  match get_entry reg category job_id with
  | none => false
  | some e => decide ((e.timeout_seconds : ℚ) ≤ nowMono - e.started_monotonic)

/-- `JobTimeoutRegistry.remove_job` (job_timeout.py lines 68-74). -/
def remove_job (reg : JobTimeoutRegistry) (category job_id : String) :
    JobTimeoutRegistry × Bool :=
  match reg.lookup category job_id with
  | some _ =>
    ({ entries := reg.entries.filter (fun e => !decide (e.1 = (category, job_id))) },
      true)
  | none => (reg, false)

/-- `MessageRole` (models/message.py). -/
inductive MessageRole where
  | USER
  | ASSISTANT
  | SYSTEM
deriving DecidableEq, Repr

/-- `QueuedMessage` (message_queue.py lines 23-32); conversation and user
ids are abstract naturals, `created_at` an abstract timestamp. -/
structure QueuedMessage where
  conversation_id : Nat
  role : MessageRole
  content : String
  user_id : Nat
  model_used : Option String
  created_at : ℤ
  retry_count : Nat
deriving DecidableEq, Repr

/-- `MessageQueue.max_retries` — constructed with the default of 3
(message_queue.py lines 42, 183). -/
def maxRetries : Nat := 3

/-- The observable state of a `MessageQueue` (message_queue.py lines
34-55): the pending FIFO, the running flag, and the persisted/dropped
messages behind the `messages_saved` / `messages_failed` stats. -/
structure MessageQueueState where
  queue : List QueuedMessage
  is_running : Bool
  saved : List QueuedMessage
  failed : List QueuedMessage
deriving DecidableEq, Repr

/-- `MessageQueue.add_message` (message_queue.py lines 75-102): append to
the FIFO with `created_at` defaulting to the enqueue time. -/
def add_message (st : MessageQueueState) (now : ℤ) (conversation_id : Nat)
    (role : MessageRole) (content : String) (user_id : Nat)
    (model_used : Option String := none) (created_at : Option ℤ := none) :
    MessageQueueState :=
  { st with
      queue := st.queue ++
        [{ conversation_id := conversation_id, role := role, content := content
           user_id := user_id, model_used := model_used
           created_at := created_at.getD now, retry_count := 0 }] }

/-- `MessageQueue._process_message` (message_queue.py lines 124-156): save
the message when the storage write succeeds; on failure re-queue it at the
tail with an incremented retry counter while under `max_retries`, else count
it failed.  `writeOk` stands for whether the database write succeeds. -/
def process_message (writeOk : QueuedMessage → Bool) (st : MessageQueueState)
    (m : QueuedMessage) : MessageQueueState :=
  if writeOk m then { st with saved := st.saved ++ [m] }
  else if m.retry_count < maxRetries then
    { st with queue := st.queue ++ [{ m with retry_count := m.retry_count + 1 }] }
  else { st with failed := st.failed ++ [m] }

/-- Termination measure for the shutdown drain: pending length plus the
total retry budget still available. -/
def drainMeasure (st : MessageQueueState) : Nat :=
  st.queue.length + (st.queue.map (fun m => maxRetries - m.retry_count)).sum

/-- `MessageQueue._process_remaining_messages` (message_queue.py lines
158-172): pop and process messages until the queue is empty. -/
def process_remaining_messages (writeOk : QueuedMessage → Bool)
    (st : MessageQueueState) : MessageQueueState :=
  match h : st.queue with
  | [] => st
  | m :: rest =>
    process_remaining_messages writeOk
      (process_message writeOk { st with queue := rest } m)
termination_by drainMeasure st
decreasing_by
  simp only [drainMeasure, process_message]
  split
  · simp only [h, List.length_cons, List.map_cons, List.sum_cons]
    omega
  · split
    · rename_i hretry
      simp only [h, List.length_append, List.map_append, List.sum_append,
        List.length_cons, List.map_cons, List.sum_cons, List.length_nil,
        List.map_nil, List.sum_nil]
      omega
    · simp only [h, List.length_cons, List.map_cons, List.sum_cons]
      omega

/-- `MessageQueue.stop` (message_queue.py lines 64-73): when running, stop
the worker and synchronously drain the remaining messages. -/
def stop (writeOk : QueuedMessage → Bool) (st : MessageQueueState) :
    MessageQueueState :=
  if st.is_running then
    process_remaining_messages writeOk { st with is_running := false }
  else st

/-- `queue_assistant_message` (message_queue.py lines 202-218). -/
def queue_assistant_message (st : MessageQueueState) (now : ℤ)
    (conversation_id : Nat) (content : String) (user_id : Nat)
    (model_used : Option String := some "gpt-4o-mini")
    (created_at : Option ℤ := none) : MessageQueueState :=
  add_message st now conversation_id MessageRole.ASSISTANT content user_id
    model_used created_at

/-- How a run of `WebSocketManager._stream_openai_response` ends: normal
completion of the OpenAI stream, cooperative cancellation after some chunks
were received, or a non-cancellation exception. -/
inductive StreamOutcome where
  | completed (chunks : List String)
  | cancelledAfter (chunks : List String)
  | failedAfter (chunks : List String)
deriving DecidableEq, Repr

/-- `full_response` accumulated chunk by chunk
(websocket_manager.py lines 370, 394). -/
def fullResponse (chunks : List String) : String :=
  chunks.foldl (fun acc c => acc ++ c) ""

/-- The persistence effect of `WebSocketManager._stream_openai_response`
(websocket_manager.py lines 366-452) on the message queue.
`generation_started_at` is the `time.time()` recorded at entry (line 372);
`now` is the clock at the moment the enqueue happens.  On completion (lines
409-419) and on `CancelledError` (lines 425-439) the accumulated content, if
non-empty and a conversation id is present, is enqueued with `created_at`
anchored at `generation_started_at`; the generic exception path (lines
442-447) enqueues nothing. -/
def stream_openai_response (conversation_id : Option Nat) (user_id : Nat)
    (generation_started_at now : ℤ) (outcome : StreamOutcome)
    (st : MessageQueueState) : MessageQueueState :=
  match outcome with
  | StreamOutcome.completed chunks =>
    match conversation_id with
    | some cid =>
      if fullResponse chunks ≠ "" then
        queue_assistant_message st now cid (fullResponse chunks) user_id
          (some "gpt-4o-mini") (some generation_started_at)
      else st
    | none => st
  | StreamOutcome.cancelledAfter chunks =>
    match conversation_id with
    | some cid =>
      if fullResponse chunks ≠ "" then
        queue_assistant_message st now cid (fullResponse chunks) user_id
          (some "gpt-4o-mini") (some generation_started_at)
      else st
    | none => st
  | StreamOutcome.failedAfter _ => st

/-- The lifecycle view of one user's streaming task used by the concurrency
claims: whether cancellation has been requested, whether the
`CancelledError` handler has run (enqueueing the partial content, see
`stream_openai_response`), and whether the task has fully unwound. -/
structure StreamTaskState where
  cancelRequested : Bool
  partPersisted : Bool
  finished : Bool
deriving DecidableEq, Repr

/-- The per-user slice of `WebSocketManager` state
(websocket_manager.py lines 22-27): the entry of `user_stream_tasks` for
this user, whether the superseding stream task has been created, and an
archive of tasks that have been awaited to full unwinding. -/
structure ManagerState where
  oldTask : Option StreamTaskState
  newTaskStarted : Bool
  unwound : List StreamTaskState
deriving DecidableEq, Repr

/-- One event-loop step of a cancelled stream task unwinding: the
`CancelledError` handler first enqueues the partial content, then the task
finishes (websocket_manager.py lines 425-441).  Cancellation is cooperative,
so these steps happen only when the scheduler runs the task — after
`task.cancel()` without an `await`, they interleave with the caller. -/
def unwind_step (s : ManagerState) : ManagerState :=
  match s.oldTask with
  | some t =>
    if t.cancelRequested && !t.finished then
      if !t.partPersisted then
        { s with oldTask := some { t with partPersisted := true } }
      else
        { s with oldTask := none
                 unwound := s.unwound ++ [{ t with finished := true }] }
    else s
  | none => s

/-- `WebSocketManager.cancel_current_stream` (websocket_manager.py lines
340-352): `task.cancel()` followed by `await task` — control returns only
after the task has executed its `CancelledError` handler (persisting the
partial content) and fully unwound; the task reference is then dropped. -/
def cancel_current_stream (s : ManagerState) : ManagerState :=
  match s.oldTask with
  | some t =>
    if !t.finished then
      { s with oldTask := none
               unwound := s.unwound ++
                 [{ t with cancelRequested := true, partPersisted := true,
                           finished := true }] }
    else s
  | none => s

/-- `WebSocketManager._start_stream_openai_response` (websocket_manager.py
lines 354-364): cancel the previous task *without awaiting it* (the source
comments "Don't await here to avoid blocking") and immediately create the
new streaming task; there is no suspension point between the two, so the old
task has not yet run its unwind steps when the new task exists. -/
def start_stream_openai_response (s : ManagerState) : ManagerState :=
  let s1 :=
    match s.oldTask with
    | some t =>
      if !t.finished then { s with oldTask := some { t with cancelRequested := true } }
      else s
    | none => s
  { s1 with newTaskStarted := true }

/-- The stream-handling portion of `WebSocketManager.handle_chat_event`
(websocket_manager.py lines 85-156): `await cancel_current_stream(user_id)`
first, then start the new stream. -/
def handle_chat_event_path (s : ManagerState) : ManagerState :=
  start_stream_openai_response (cancel_current_stream s)

/-- The stream-handling portion of `WebSocketManager.handle_legacy_message`
(websocket_manager.py lines 280-338): no call to `cancel_current_stream`; it
goes straight to `_start_stream_openai_response`. -/
def handle_legacy_message_path (s : ManagerState) : ManagerState :=
  start_stream_openai_response s

/-- The manager states visible during the chat-event path: before, after the
awaited cancellation, and after the new task is started. -/
def chat_event_trace (s : ManagerState) : List ManagerState :=
  [s, cancel_current_stream s, handle_chat_event_path s]

/-- Two streaming tasks of the same user exist at once: the new task has
been started while the previous one has not finished unwinding. -/
def twoStreamsInFlight (s : ManagerState) : Bool :=
  s.newTaskStarted &&
    (match s.oldTask with
     | some t => !t.finished
     | none => false)

/-! ### Helper lemmas -/

theorem scalarOneOrNone_eq_some {α : Type} {l : List α} {a : α} :
    scalarOneOrNone l = some a ↔ l = [a] := by
  constructor
  · intro h
    match l with
    | [] => simp [scalarOneOrNone] at h
    | [x] => simp [scalarOneOrNone] at h; simp [h]
    | x :: y :: rest => simp [scalarOneOrNone] at h
  · intro h; subst h; rfl

theorem register_job_noop {reg : JobTimeoutRegistry} {c j : String}
    {e : JobTimeoutEntry} (h : reg.lookup c j = some e)
    (t : ℚ) (T : ℤ) (pid fid : Option String) :
    register_job reg t c j T pid fid = reg := by
  unfold register_job
  rw [h]

theorem lookup_of_find?_none {reg : JobTimeoutRegistry} {c j : String}
    (h : reg.lookup c j = none) :
    reg.entries.find? (fun e => decide (e.1 = (c, j))) = none := by
  unfold JobTimeoutRegistry.lookup at h
  cases hf : reg.entries.find? (fun e => decide (e.1 = (c, j))) with
  | none => rfl
  | some e => rw [hf] at h; simp at h

/-! ### C7 : job timeout registry -/

/-- C7: a (category, jobId) never registered in the Job Timeout Registry is
never timed out; after registering with budget `T` at monotonic time `t0`,
`is_timed_out` is true exactly when `T ≤ now - t0`, and re-registering the
same key is a no-op, never resetting the clock. -/
theorem c7_timeout_registry (reg : JobTimeoutRegistry) (c j : String)
    (h : get_entry reg c j = none) :
    (∀ now : ℚ, is_timed_out reg now c j = false) ∧
    (∀ (t0 : ℚ) (T : ℤ) (pid fid : Option String),
      (∀ now : ℚ,
        is_timed_out (register_job reg t0 c j T pid fid) now c j
          = decide ((T : ℚ) ≤ now - t0)) ∧
      (∀ (t1 : ℚ) (T2 : ℤ) (pid2 fid2 : Option String),
        register_job (register_job reg t0 c j T pid fid) t1 c j T2 pid2 fid2
          = register_job reg t0 c j T pid fid)) := by
  have hlook : reg.lookup c j = none := h
  have hfind := lookup_of_find?_none hlook
  refine ⟨?_, ?_⟩
  · intro now
    simp [is_timed_out, get_entry, hlook]
  · intro t0 T pid fid
    have hreg : register_job reg t0 c j T pid fid =
        { entries := reg.entries ++
            [((c, j),
              { category := c, job_id := j, timeout_seconds := T
                started_monotonic := t0
                project_id := pid, file_id := fid })] } := by
      simp [register_job, hlook]
    have hlook1 :
        (register_job reg t0 c j T pid fid).lookup c j =
          some { category := c, job_id := j, timeout_seconds := T
                 started_monotonic := t0
                 project_id := pid, file_id := fid } := by
      rw [hreg]
      unfold JobTimeoutRegistry.lookup
      rw [List.find?_append, hfind]
      simp
    refine ⟨?_, ?_⟩
    · intro now
      simp [is_timed_out, get_entry, hlook1]
    · intro t1 T2 pid2 fid2
      exact register_job_noop hlook1 t1 T2 pid2 fid2

/-- Concrete run of `c7_timeout_registry`: register "job1" in category
"ingestion" with a 2-second budget on an empty registry; after 2 seconds it
is timed out, before it is not, and "unknown" is never timed out. -/
theorem c7_timeout_registry_witness :
    get_entry { entries := [] } "ingestion" "job1" = none ∧
    is_timed_out { entries := [] } 5 "ingestion" "unknown" = false ∧
    is_timed_out (register_job { entries := [] } 10 "ingestion" "job1" 2) 12
        "ingestion" "job1" = true ∧
    is_timed_out (register_job { entries := [] } 10 "ingestion" "job1" 2) 11
        "ingestion" "job1" = false := by
  have h := c7_timeout_registry { entries := [] } "ingestion" "job1" (by decide)
  refine ⟨by decide, ?_, ?_, ?_⟩
  · have := (c7_timeout_registry { entries := [] } "ingestion" "unknown"
      (by decide)).1 5
    exact this
  · rw [(h.2 10 2 none none).1 12]; norm_num
  · rw [(h.2 10 2 none none).1 11]; norm_num

/-! ### C9 : cancelled streams persist partials at generation start -/

/-- C9: a streaming task cancelled after producing non-empty partial content
for a conversation enqueues exactly one assistant message holding that
content, with `created_at` equal to the generation-start timestamp — not the
cancellation-time clock `now`. -/
theorem c9_partial_persist (cid user_id : Nat)
    (generation_started_at now : ℤ) (chunks : List String)
    (st : MessageQueueState) (h : fullResponse chunks ≠ "") :
    stream_openai_response (some cid) user_id generation_started_at now
        (StreamOutcome.cancelledAfter chunks) st =
      { st with queue := st.queue ++
          [{ conversation_id := cid, role := MessageRole.ASSISTANT
             content := fullResponse chunks, user_id := user_id
             model_used := some "gpt-4o-mini"
             created_at := generation_started_at, retry_count := 0 }] } := by
  simp [stream_openai_response, h, queue_assistant_message, add_message]

/-- Concrete run of `c9_partial_persist`: a stream cancelled after chunks
"Hel" and "lo" enqueues one assistant message "Hello" stamped with the
generation start time 100, not the cancellation time 250. -/
theorem c9_partial_persist_witness :
    fullResponse ["Hel", "lo"] ≠ "" ∧
    stream_openai_response (some 7) 3 100 250
        (StreamOutcome.cancelledAfter ["Hel", "lo"])
        { queue := [], is_running := true, saved := [], failed := [] } =
      { queue := [{ conversation_id := 7, role := MessageRole.ASSISTANT
                    content := "Hello", user_id := 3
                    model_used := some "gpt-4o-mini"
                    created_at := 100, retry_count := 0 }]
        is_running := true, saved := [], failed := [] } := by
  constructor
  · decide
  · rw [c9_partial_persist 7 3 100 250 ["Hel", "lo"] _ (by decide)]
    decide

/-! ### C3 : stream exclusivity on new prompts -/

/-- C3 counterexample: on the legacy message path the manager starts the new
streaming task without awaiting the cancelled one.  Starting from a state
with one in-flight (unfinished, nothing persisted) stream and no new task,
`handle_legacy_message_path` yields a state where the new task is started
while the old task is unfinished and its partial content has not been
enqueued — two streaming tasks for the same user are in flight at once,
contradicting the claim that the manager always waits for the unwind. -/
theorem c3_counterexample :
    twoStreamsInFlight
        (handle_legacy_message_path
          { oldTask := some { cancelRequested := false, partPersisted := false,
                              finished := false }
            newTaskStarted := false, unwound := [] }) = true ∧
    (handle_legacy_message_path
          { oldTask := some { cancelRequested := false, partPersisted := false,
                              finished := false }
            newTaskStarted := false, unwound := [] }).oldTask =
      some { cancelRequested := true, partPersisted := false,
             finished := false } := by
  decide

/-- C3 amended: on the event-format chat path (`handle_chat_event`), the
manager cancels the in-flight stream and awaits its full unwinding —
including the enqueueing of partial content — before the new stream task is
started, so no two streaming tasks of the same user are ever in flight on
that path; the legacy path gives no such guarantee
(see `c3_counterexample`). -/
theorem c3_amended_chat_event_exclusive (s : ManagerState)
    (hnew : s.newTaskStarted = false) :
    (∀ x ∈ chat_event_trace s, twoStreamsInFlight x = false) ∧
    (∀ t, s.oldTask = some t → t.finished = false →
      ∃ u ∈ (cancel_current_stream s).unwound,
        u.finished = true ∧ u.partPersisted = true) := by
  constructor
  · intro x hx
    simp [chat_event_trace] at hx
    rcases hx with h | h | h
    · subst h; simp [twoStreamsInFlight, hnew]
    · subst h
      cases hold : s.oldTask with
      | none => simp [twoStreamsInFlight, cancel_current_stream, hold, hnew]
      | some t =>
        by_cases hf : t.finished
        · simp [twoStreamsInFlight, cancel_current_stream, hold, hf, hnew]
        · simp [twoStreamsInFlight, cancel_current_stream, hold, hf, hnew]
    · subst h
      cases hold : s.oldTask with
      | none =>
        simp [twoStreamsInFlight, handle_chat_event_path,
          start_stream_openai_response, cancel_current_stream, hold]
      | some t =>
        by_cases hf : t.finished
        · simp [twoStreamsInFlight, handle_chat_event_path,
            start_stream_openai_response, cancel_current_stream, hold, hf]
        · simp [twoStreamsInFlight, handle_chat_event_path,
            start_stream_openai_response, cancel_current_stream, hold, hf]
  · intro t hold hf
    have hunw : (cancel_current_stream s).unwound =
        s.unwound ++ [{ t with cancelRequested := true, partPersisted := true, finished := true }] := by
      simp [cancel_current_stream, hold, hf]
    rw [hunw]
    exact ⟨{ cancelRequested := true, partPersisted := true, finished := true },
      List.mem_append_right _ (by simp), rfl, rfl⟩

/-- Concrete run of `c3_amended_chat_event_exclusive` on a state with one
in-flight stream: no state of the chat-event trace has two streams in
flight, and the cancelled task appears fully unwound with partial persisted. -/
theorem c3_amended_witness :
    twoStreamsInFlight
        (cancel_current_stream
          { oldTask := some { cancelRequested := false, partPersisted := false,
                              finished := false }
            newTaskStarted := false, unwound := [] }) = false ∧
    twoStreamsInFlight
        (handle_chat_event_path
          { oldTask := some { cancelRequested := false, partPersisted := false,
                              finished := false }
            newTaskStarted := false, unwound := [] }) = false :=
  ⟨(c3_amended_chat_event_exclusive
      { oldTask := some { cancelRequested := false, partPersisted := false,
                          finished := false }
        newTaskStarted := false, unwound := [] } rfl).1 _
    (by simp [chat_event_trace]),
   (c3_amended_chat_event_exclusive
      { oldTask := some { cancelRequested := false, partPersisted := false,
                          finished := false }
        newTaskStarted := false, unwound := [] } rfl).1 _
    (by simp [chat_event_trace])⟩

/-! ### C8 : queue drain on shutdown -/

theorem process_remaining_all_ok {writeOk : QueuedMessage → Bool}
    (hok : ∀ m, writeOk m = true) :
    ∀ (q : List QueuedMessage) (run : Bool) (saved failed : List QueuedMessage),
      process_remaining_messages writeOk
          { queue := q, is_running := run, saved := saved, failed := failed } =
        { queue := [], is_running := run, saved := saved ++ q, failed := failed } := by
  intro q
  induction q with
  | nil =>
    intro run saved failed
    simp [process_remaining_messages]
  | cons m rest ih =>
    intro run saved failed
    rw [process_remaining_messages]
    simp only [process_message, hok m, if_pos]
    rw [ih]
    simp

theorem process_remaining_failed_only_exhausted (writeOk : QueuedMessage → Bool) :
    ∀ st : MessageQueueState,
      ∀ m ∈ (process_remaining_messages writeOk st).failed,
        m ∈ st.failed ∨ maxRetries ≤ m.retry_count := by
  intro st
  induction st using process_remaining_messages.induct writeOk with
  | case1 st hq =>
    rw [process_remaining_messages, hq]
    exact fun m hm => Or.inl hm
  | case2 st m rest hq ih =>
    intro x hx
    rw [process_remaining_messages, hq] at hx
    have hx' := ih x hx
    rcases hx' with hmem | hret
    · unfold process_message at hmem
      by_cases hw : writeOk m = true
      · rw [if_pos hw] at hmem
        exact Or.inl hmem
      · rw [if_neg hw] at hmem
        by_cases hr : m.retry_count < maxRetries
        · rw [if_pos hr] at hmem
          exact Or.inl hmem
        · rw [if_neg hr] at hmem
          simp only [List.mem_append, List.mem_singleton] at hmem
          rcases hmem with hmem | rfl
          · exact Or.inl hmem
          · exact Or.inr (Nat.le_of_not_lt hr)
    · exact Or.inr hret

/-- C8: when the queue is running and every storage write succeeds, `stop`
synchronously persists every message still pending (in FIFO order, appended
to the already-saved ones), leaving the queue empty and losing nothing; and
for an arbitrary pattern of storage failures, the only messages ever counted
failed are those that exhausted the maximum of `maxRetries` (3) retries. -/
theorem c8_stop_drains (writeOk : QueuedMessage → Bool)
    (st : MessageQueueState) (hrun : st.is_running = true)
    (hok : ∀ m, writeOk m = true) :
    stop writeOk st =
      { queue := [], is_running := false, saved := st.saved ++ st.queue
        failed := st.failed } ∧
    (∀ (writeOk2 : QueuedMessage → Bool) (st2 : MessageQueueState),
      ∀ m ∈ (stop writeOk2 st2).failed,
        m ∈ st2.failed ∨ maxRetries ≤ m.retry_count) := by
  constructor
  · rw [stop, if_pos hrun]
    exact process_remaining_all_ok hok st.queue false st.saved st.failed
  · intro writeOk2 st2 m hm
    unfold stop at hm
    by_cases h2 : st2.is_running = true
    · rw [if_pos h2] at hm
      exact process_remaining_failed_only_exhausted writeOk2
        { st2 with is_running := false } m hm
    · rw [if_neg h2] at hm
      exact Or.inl hm

/-- Concrete run of `c8_stop_drains`: five queued messages, all storage
writes succeeding; `stop` persists all five in order and drops none. -/
theorem c8_stop_drains_witness :
    (({ queue :=
          [⟨1, MessageRole.USER, "m1", 9, none, 0, 0⟩,
           ⟨1, MessageRole.ASSISTANT, "m2", 9, none, 1, 0⟩,
           ⟨1, MessageRole.USER, "m3", 9, none, 2, 0⟩,
           ⟨2, MessageRole.USER, "m4", 9, none, 3, 0⟩,
           ⟨2, MessageRole.ASSISTANT, "m5", 9, none, 4, 0⟩]
        is_running := true, saved := [], failed := [] } :
        MessageQueueState).is_running = true) ∧
    stop (fun _ => true)
        { queue :=
            [⟨1, MessageRole.USER, "m1", 9, none, 0, 0⟩,
             ⟨1, MessageRole.ASSISTANT, "m2", 9, none, 1, 0⟩,
             ⟨1, MessageRole.USER, "m3", 9, none, 2, 0⟩,
             ⟨2, MessageRole.USER, "m4", 9, none, 3, 0⟩,
             ⟨2, MessageRole.ASSISTANT, "m5", 9, none, 4, 0⟩]
          is_running := true, saved := [], failed := [] } =
      { queue := []
        is_running := false
        saved :=
          [⟨1, MessageRole.USER, "m1", 9, none, 0, 0⟩,
           ⟨1, MessageRole.ASSISTANT, "m2", 9, none, 1, 0⟩,
           ⟨1, MessageRole.USER, "m3", 9, none, 2, 0⟩,
           ⟨2, MessageRole.USER, "m4", 9, none, 3, 0⟩,
           ⟨2, MessageRole.ASSISTANT, "m5", 9, none, 4, 0⟩]
        failed := [] } := by
  refine ⟨rfl, ?_⟩
  rw [(c8_stop_drains (fun _ => true) _ rfl (fun _ => rfl)).1]
  rfl

/-! ### C4 : recordUsage with no pricing configured -/

/-- C4: when no non-deleted pricing row has an effective date at or before
`now`, `log_usage` returns a structured failure — success false, message
"Token pricing not configured", no usage-log entry — and the database state
(so every account's counters and status, and the usage log) is unchanged. -/
theorem c4_no_pricing (db : DB) (now : PyDateTime) (user_id : String)
    (feature_type : FeatureType) (tokens_used : ℤ)
    (request_id meta_data : Option String) (latency_ms : Option ℤ)
    (model_used project_id file_id : Option String)
    (prompt_tokens completion_tokens : Option ℤ) (status : Option String)
    (h : ∀ p ∈ db.token_pricing,
      p.is_deleted = true ∨ PyDateTime.leb p.effective_date now = false) :
    log_usage db now user_id feature_type tokens_used request_id meta_data
        latency_ms model_used project_id file_id prompt_tokens
        completion_tokens status =
      (db,
        { success := false, message := "Token pricing not configured"
          usage_log := none, subscription := none, limit_reached := false }) := by
  have hfilter : db.token_pricing.filter
      (fun p => !p.is_deleted && PyDateTime.leb p.effective_date now) = [] := by
    rw [List.filter_eq_nil_iff]
    intro p hp
    rcases h p hp with hd | hl
    · simp [hd]
    · simp [hl]
  have hp : get_current_pricing db now = none := by
    rw [get_current_pricing, hfilter]
    rfl
  rw [log_usage, hp]

/-- Concrete run of `c4_no_pricing`: the only pricing row becomes effective
after `now`, so `log_usage` fails softly and the state is untouched. -/
theorem c4_no_pricing_witness :
    (∀ p ∈ ({ token_pricing := [⟨1, 1/50, ⟨2030, 1, 0⟩, false⟩]
              subscription_tiers := [], user_subscriptions := []
              usage_log := [], next_id := 2 } : DB).token_pricing,
      p.is_deleted = true ∨
        PyDateTime.leb p.effective_date ⟨2025, 9, 5⟩ = false) ∧
    log_usage { token_pricing := [⟨1, 1/50, ⟨2030, 1, 0⟩, false⟩]
                subscription_tiers := [], user_subscriptions := []
                usage_log := [], next_id := 2 } ⟨2025, 9, 5⟩ "user1"
        FeatureType.CHAT 100 (some "req1") none none none none none none none
        none =
      ({ token_pricing := [⟨1, 1/50, ⟨2030, 1, 0⟩, false⟩]
         subscription_tiers := [], user_subscriptions := []
         usage_log := [], next_id := 2 },
        { success := false, message := "Token pricing not configured"
          usage_log := none, subscription := none, limit_reached := false }) :=
  ⟨by decide, c4_no_pricing _ _ _ _ _ _ _ _ _ _ _ _ _ _ (by decide)⟩

/-! ### C10 : deny results report zero remaining tokens -/

/-- C10: with the account row of the current period and its tier resolved,
a `check_subscription_limit` denial for an EXPIRED, CANCELED or INACTIVE
account reports `tokens_remaining = 0` whatever the actual difference
`token_limit - tokens_consumed` is; only an allowed result reports that
difference (which may be negative). -/
theorem c10_deny_zero_remaining (db : DB) (now : PyDateTime)
    (user_id : String) (feature_type : FeatureType)
    (sub : UserSubscription) (tier : SubscriptionTier)
    (hsub : get_by_user_id_and_period db user_id
      (get_current_billing_period now) = some sub)
    (htier : get_by_plan_name db sub.subscription_plan = some tier) :
    ((sub.status = SubscriptionStatus.EXPIRED ∨
      sub.status = SubscriptionStatus.CANCELED ∨
      sub.status = SubscriptionStatus.INACTIVE) →
      (check_subscription_limit db now user_id feature_type).2.allowed = false ∧
      (check_subscription_limit db now user_id feature_type).2.tokens_remaining = some 0) ∧
    ((check_subscription_limit db now user_id feature_type).2.allowed = true →
      (check_subscription_limit db now user_id feature_type).2.tokens_remaining =
        some (tier.token_limit - sub.tokens_consumed)) := by
  have hgc : get_or_create_user_subscription db now user_id = (db, sub, false) := by
    simp only [get_or_create_user_subscription, hsub]
  constructor
  · rintro (hst | hst | hst) <;>
      simp [check_subscription_limit, hgc, htier, hst]
  · intro hallow
    simp only [check_subscription_limit, hgc, htier] at hallow ⊢
    split_ifs at hallow ⊢ <;> simp_all

/-- Concrete run of `c10_deny_zero_remaining`: an EXPIRED account with 400
of 1000 tokens left is denied with `tokens_remaining = 0`. -/
theorem c10_deny_zero_remaining_witness :
    get_by_user_id_and_period
        { token_pricing := []
          subscription_tiers := [⟨1, "Free", 1000, "Monthly", none, false⟩]
          user_subscriptions :=
            [⟨2, "user1", "Free", 600, 0, SubscriptionStatus.EXPIRED,
              "2025-09", ⟨2025, 9, 1⟩, none, none, ⟨2025, 9, 1⟩, false⟩]
          usage_log := [], next_id := 3 } "user1"
        (get_current_billing_period ⟨2025, 9, 5⟩) =
      some ⟨2, "user1", "Free", 600, 0, SubscriptionStatus.EXPIRED,
        "2025-09", ⟨2025, 9, 1⟩, none, none, ⟨2025, 9, 1⟩, false⟩ ∧
    (check_subscription_limit
        { token_pricing := []
          subscription_tiers := [⟨1, "Free", 1000, "Monthly", none, false⟩]
          user_subscriptions :=
            [⟨2, "user1", "Free", 600, 0, SubscriptionStatus.EXPIRED,
              "2025-09", ⟨2025, 9, 1⟩, none, none, ⟨2025, 9, 1⟩, false⟩]
          usage_log := [], next_id := 3 } ⟨2025, 9, 5⟩ "user1"
        FeatureType.CHAT).2.allowed = false ∧
    (check_subscription_limit
        { token_pricing := []
          subscription_tiers := [⟨1, "Free", 1000, "Monthly", none, false⟩]
          user_subscriptions :=
            [⟨2, "user1", "Free", 600, 0, SubscriptionStatus.EXPIRED,
              "2025-09", ⟨2025, 9, 1⟩, none, none, ⟨2025, 9, 1⟩, false⟩]
          usage_log := [], next_id := 3 } ⟨2025, 9, 5⟩ "user1"
        FeatureType.CHAT).2.tokens_remaining = some 0 :=
  ⟨by decide,
    (c10_deny_zero_remaining
      { token_pricing := []
        subscription_tiers := [⟨1, "Free", 1000, "Monthly", none, false⟩]
        user_subscriptions :=
          [⟨2, "user1", "Free", 600, 0, SubscriptionStatus.EXPIRED,
            "2025-09", ⟨2025, 9, 1⟩, none, none, ⟨2025, 9, 1⟩, false⟩]
        usage_log := [], next_id := 3 } ⟨2025, 9, 5⟩ "user1" FeatureType.CHAT
      ⟨2, "user1", "Free", 600, 0, SubscriptionStatus.EXPIRED,
        "2025-09", ⟨2025, 9, 1⟩, none, none, ⟨2025, 9, 1⟩, false⟩
      ⟨1, "Free", 1000, "Monthly", none, false⟩
      (by decide) (by decide)).1 (Or.inl (by decide))⟩

/-! ### C5 : billing-period rollover carries the plan forward -/

/-- C5: for a user with no account row in the current billing period whose
most recent active-or-limit-reached account is `prev`,
`get_or_create_user_subscription` creates (created = true) and returns a row
for the current period with zero consumption, `prev`'s plan and external
refs carried forward, and `start_date` the first day of the period; a user
with no prior account gets the default plan "Free". -/
theorem c5_period_rollover (db : DB) (now : PyDateTime) (user_id : String)
    (prev : UserSubscription)
    (hnone : get_by_user_id_and_period db user_id
      (get_current_billing_period now) = none)
    (hprev : get_active_subscription db user_id = some prev) :
    (get_or_create_user_subscription db now user_id).2.2 = true ∧
    (get_or_create_user_subscription db now user_id).2.1.billing_period =
      get_current_billing_period now ∧
    (get_or_create_user_subscription db now user_id).2.1.tokens_consumed = 0 ∧
    (get_or_create_user_subscription db now user_id).2.1.subscription_plan =
      prev.subscription_plan ∧
    (get_or_create_user_subscription db now user_id).2.1.stripe_customer_id =
      prev.stripe_customer_id ∧
    (get_or_create_user_subscription db now user_id).2.1.stripe_subscription_id =
      prev.stripe_subscription_id ∧
    (get_or_create_user_subscription db now user_id).2.1.start_date =
      get_billing_period_start_date (get_current_billing_period now) ∧
    (get_or_create_user_subscription db now user_id).2.1.start_date.day = 1 ∧
    (get_or_create_user_subscription db now user_id).1.user_subscriptions =
      db.user_subscriptions ++
        [(get_or_create_user_subscription db now user_id).2.1] ∧
    (∀ (db2 : DB) (now2 : PyDateTime) (u2 : String),
      get_by_user_id_and_period db2 u2 (get_current_billing_period now2) = none →
      get_active_subscription db2 u2 = none →
      (get_or_create_user_subscription db2 now2 u2).2.1.subscription_plan =
        "Free") := by
  have hfree : ∀ (db2 : DB) (now2 : PyDateTime) (u2 : String),
      get_by_user_id_and_period db2 u2 (get_current_billing_period now2) = none →
      get_active_subscription db2 u2 = none →
      (get_or_create_user_subscription db2 now2 u2).2.1.subscription_plan =
        "Free" := by
    intro db2 now2 u2 hnone2 hprev2
    simp [get_or_create_user_subscription, hnone2, hprev2,
      user_subscription_create]
  refine ⟨?_, ?_, ?_, ?_, ?_, ?_, ?_, ?_, ?_, hfree⟩ <;>
    simp [get_or_create_user_subscription, hnone, hprev, pyOrStr,
      user_subscription_create, get_billing_period_start_date]

/-- Concrete run of `c5_period_rollover`: in period "2025-02" a user whose
latest active account sits in "2025-01" with plan "Pro" gets a fresh
"2025-02" row with zero tokens and plan "Pro" carried forward. -/
theorem c5_period_rollover_witness :
    get_by_user_id_and_period
        { token_pricing := [], subscription_tiers := []
          user_subscriptions :=
            [⟨2, "user1", "Pro", 800, 4, SubscriptionStatus.ACTIVE,
              "2025-01", ⟨2025, 1, 1⟩, some "cus_1", some "sub_1",
              ⟨2025, 1, 2⟩, false⟩]
          usage_log := [], next_id := 3 } "user1"
        (get_current_billing_period ⟨2025, 2, 7⟩) = none ∧
    (get_or_create_user_subscription
        { token_pricing := [], subscription_tiers := []
          user_subscriptions :=
            [⟨2, "user1", "Pro", 800, 4, SubscriptionStatus.ACTIVE,
              "2025-01", ⟨2025, 1, 1⟩, some "cus_1", some "sub_1",
              ⟨2025, 1, 2⟩, false⟩]
          usage_log := [], next_id := 3 } ⟨2025, 2, 7⟩ "user1").2.2 = true ∧
    (get_or_create_user_subscription
        { token_pricing := [], subscription_tiers := []
          user_subscriptions :=
            [⟨2, "user1", "Pro", 800, 4, SubscriptionStatus.ACTIVE,
              "2025-01", ⟨2025, 1, 1⟩, some "cus_1", some "sub_1",
              ⟨2025, 1, 2⟩, false⟩]
          usage_log := [], next_id := 3 } ⟨2025, 2, 7⟩ "user1").2.1.billing_period =
      "2025-02" ∧
    (get_or_create_user_subscription
        { token_pricing := [], subscription_tiers := []
          user_subscriptions :=
            [⟨2, "user1", "Pro", 800, 4, SubscriptionStatus.ACTIVE,
              "2025-01", ⟨2025, 1, 1⟩, some "cus_1", some "sub_1",
              ⟨2025, 1, 2⟩, false⟩]
          usage_log := [], next_id := 3 } ⟨2025, 2, 7⟩ "user1").2.1.tokens_consumed =
      0 ∧
    (get_or_create_user_subscription
        { token_pricing := [], subscription_tiers := []
          user_subscriptions :=
            [⟨2, "user1", "Pro", 800, 4, SubscriptionStatus.ACTIVE,
              "2025-01", ⟨2025, 1, 1⟩, some "cus_1", some "sub_1",
              ⟨2025, 1, 2⟩, false⟩]
          usage_log := [], next_id := 3 } ⟨2025, 2, 7⟩ "user1").2.1.subscription_plan =
      "Pro" := by
  have h := c5_period_rollover
    { token_pricing := [], subscription_tiers := []
      user_subscriptions :=
        [⟨2, "user1", "Pro", 800, 4, SubscriptionStatus.ACTIVE,
          "2025-01", ⟨2025, 1, 1⟩, some "cus_1", some "sub_1",
          ⟨2025, 1, 2⟩, false⟩]
      usage_log := [], next_id := 3 } ⟨2025, 2, 7⟩ "user1"
    ⟨2, "user1", "Pro", 800, 4, SubscriptionStatus.ACTIVE,
      "2025-01", ⟨2025, 1, 1⟩, some "cus_1", some "sub_1",
      ⟨2025, 1, 2⟩, false⟩ (by decide) (by decide)
  refine ⟨by decide, h.1, ?_, h.2.2.1, h.2.2.2.1⟩
  rw [h.2.1]
  decide

/-! ### C6 : dollar cost rounding -/

theorem abs_roundHalfAway_sub_le (x : ℚ) :
    |(roundHalfAway x : ℚ) - x| ≤ 1 / 2 := by
  unfold roundHalfAway ratFloor
  split
  · rw [abs_le]
    have h1 := Int.floor_le (x + 1 / 2)
    have h2 := Int.sub_one_lt_floor (x + 1 / 2)
    constructor <;> linarith
  · push_cast
    rw [abs_le]
    have h1 := Int.floor_le (-x + 1 / 2)
    have h2 := Int.sub_one_lt_floor (-x + 1 / 2)
    constructor <;> linarith

theorem abs_sqlRound3_sub_le (q : ℚ) : |sqlRound3 q - q| ≤ 1 / 1000 := by
  unfold sqlRound3
  have h := abs_roundHalfAway_sub_le (q * 1000)
  have hq : (roundHalfAway (q * 1000) : ℚ) / 1000 - q =
      ((roundHalfAway (q * 1000) : ℚ) - q * 1000) / 1000 := by ring
  rw [hq, abs_div]
  have h1000 : |(1000 : ℚ)| = 1000 := by norm_num
  rw [h1000, div_le_div_iff₀ (by norm_num) (by norm_num)]
  linarith

theorem pyRound3_333 : pyRound3 ((333 : ℚ) / 1000 * (2 / 100)) = 7 / 1000 := by
  have h1 : ((333 : ℚ) / 1000 * (2 / 100)) * 1000 = 333 / 50 := by norm_num
  simp only [pyRound3, roundHalfEven, ratFloor, h1]
  have hf : ⌊(333 : ℚ) / 50⌋ = 6 := by
    rw [Int.floor_eq_iff]
    norm_num
  rw [hf]
  norm_num

theorem log_usage_dollar_cost (db : DB) (now : PyDateTime) (u : String)
    (ft : FeatureType) (t : ℤ) (rid md : Option String) (lat : Option ℤ)
    (mu pj fl : Option String) (pt ct : Option ℤ) (stt : Option String)
    (p : TokenPricing) (hp : get_current_pricing db now = some p) :
    ((log_usage db now u ft t rid md lat mu pj fl pt ct stt).2.usage_log).map
        (fun e => e.dollar_cost) =
      some (pyRound3 ((t : ℚ) / 1000 * p.usd_per_1k_tokens)) := by
  simp only [log_usage, hp]
  repeat' split
  all_goals simp [usage_log_create]

/-- C6: when pricing `p` is configured, `log_usage` records
`dollar_cost = round(tokensUsed / 1000 * usd_per_1k_tokens, 3)`; at 333
tokens and rate 0.02 that is 0.007; and the 3-decimal re-rounding that
`increment_usage` applies at every accumulation of `dollar_spent` moves the
exact sum by at most 0.001 per operation. -/
theorem c6_rounding (db : DB) (now : PyDateTime) (u : String)
    (ft : FeatureType) (t : ℤ) (rid md : Option String) (lat : Option ℤ)
    (mu pj fl : Option String) (pt ct : Option ℤ) (stt : Option String)
    (p : TokenPricing) (hp : get_current_pricing db now = some p) :
    ((log_usage db now u ft t rid md lat mu pj fl pt ct stt).2.usage_log).map
        (fun e => e.dollar_cost) =
      some (pyRound3 ((t : ℚ) / 1000 * p.usd_per_1k_tokens)) ∧
    pyRound3 ((333 : ℚ) / 1000 * (2 / 100)) = 7 / 1000 ∧
    (∀ s c : ℚ, |sqlRound3 (s + c) - (s + c)| ≤ 1 / 1000) := by
  exact ⟨log_usage_dollar_cost db now u ft t rid md lat mu pj fl pt ct stt p hp,
    pyRound3_333, fun s c => abs_sqlRound3_sub_le (s + c)⟩

/-- Concrete run of `c6_rounding`: with a 0.02-per-1k pricing row in force,
the 333-token charge rounds to exactly 0.007. -/
theorem c6_rounding_witness :
    get_current_pricing
        { token_pricing := [⟨1, 2 / 100, ⟨2025, 1, 0⟩, false⟩]
          subscription_tiers := [], user_subscriptions := []
          usage_log := [], next_id := 2 } ⟨2025, 9, 5⟩ =
      some ⟨1, 2 / 100, ⟨2025, 1, 0⟩, false⟩ ∧
    pyRound3 ((333 : ℚ) / 1000 * (2 / 100)) = 7 / 1000 :=
  ⟨rfl,
    (c6_rounding
      { token_pricing := [⟨1, 2 / 100, ⟨2025, 1, 0⟩, false⟩]
        subscription_tiers := [], user_subscriptions := []
        usage_log := [], next_id := 2 } ⟨2025, 9, 5⟩ "user1"
      FeatureType.CHAT 333 none none none none none none none none none
      ⟨1, 2 / 100, ⟨2025, 1, 0⟩, false⟩ rfl).2.1⟩

/-! ### C1 : idempotency by request id -/

theorem get_or_create_preserves (db : DB) (now : PyDateTime) (u dp : String)
    (sc ss : Option String) :
    (get_or_create_user_subscription db now u dp sc ss).1.usage_log =
      db.usage_log ∧
    (get_or_create_user_subscription db now u dp sc ss).1.subscription_tiers =
      db.subscription_tiers ∧
    (get_or_create_user_subscription db now u dp sc ss).1.token_pricing =
      db.token_pricing := by
  unfold get_or_create_user_subscription
  cases hm : get_by_user_id_and_period db u (get_current_billing_period now) with
  | some existing => simp [hm]
  | none => simp [hm, user_subscription_create]

theorem log_usage_usage_log (db : DB) (now : PyDateTime) (u : String)
    (ft : FeatureType) (t : ℤ) (rid md : Option String) (lat : Option ℤ)
    (mu pj fl : Option String) (pt ct : Option ℤ) (stt : Option String)
    (p : TokenPricing) (hp : get_current_pricing db now = some p) :
    (log_usage db now u ft t rid md lat mu pj fl pt ct stt).1.usage_log =
      db.usage_log ++
        [(usage_log_create db u ft t
            (pyRound3 ((t : ℚ) / 1000 * p.usd_per_1k_tokens)) rid md lat mu
            pj fl pt ct stt).2] := by
  simp only [log_usage, hp]
  have hgc := get_or_create_preserves
    (usage_log_create db u ft t
      (pyRound3 ((t : ℚ) / 1000 * p.usd_per_1k_tokens)) rid md lat mu pj fl
      pt ct stt).1 now u "Free" none none
  repeat' split
  all_goals
    simp_all [increment_usage, update_status, usage_log_create]

theorem log_usage_count (db : DB) (now : PyDateTime) (u : String)
    (ft : FeatureType) (t : ℤ) (rid : String) (md : Option String)
    (lat : Option ℤ) (mu pj fl : Option String) (pt ct : Option ℤ)
    (stt : Option String) (p : TokenPricing)
    (hp : get_current_pricing db now = some p) :
    count_usage_entries
        (log_usage db now u ft t (some rid) md lat mu pj fl pt ct stt).1
        u ft rid =
      count_usage_entries db u ft rid + 1 := by
  unfold count_usage_entries
  rw [log_usage_usage_log db now u ft t (some rid) md lat mu pj fl pt ct stt
    p hp]
  rw [List.filter_append, List.length_append]
  simp [usage_log_create]

theorem exists_by_request_id_eq_count (db : DB) (u : String)
    (ft : FeatureType) (rid : String) (h : rid ≠ "") :
    exists_by_request_id db u ft rid =
      decide (0 < count_usage_entries db u ft rid) := by
  unfold exists_by_request_id count_usage_entries
  rw [if_neg h]

/-- C1 counterexample data: pricing at 1 USD per 1k tokens, a Free tier, and
one ACTIVE account for "user1" in period "2025-09". -/
def c1_db : DB :=
  { token_pricing := [⟨1, 1, ⟨2025, 1, 0⟩, false⟩]
    subscription_tiers := [⟨2, "Free", 1000, "Monthly", none, false⟩]
    user_subscriptions :=
      [⟨3, "user1", "Free", 0, 0, SubscriptionStatus.ACTIVE, "2025-09",
        ⟨2025, 9, 1⟩, none, none, ⟨2025, 9, 1⟩, false⟩]
    usage_log := [], next_id := 4 }

/-- C1 counterexample: `log_usage` itself performs no request-id
deduplication — calling it twice with the same (user, feature, request_id)
triple and non-empty request id "req1" inserts TWO usage-log rows for the
triple and doubles the account's `tokens_consumed` (100-token calls leave
the counter at 200), so the claim that the two calls "result in exactly one
UsageLogEntry row" and "counters reflect only one charge" is false of
`BillingService.log_usage`. -/
theorem c1_counterexample :
    count_usage_entries
        (log_usage
          (log_usage c1_db ⟨2025, 9, 5⟩ "user1" FeatureType.CHAT 100
            (some "req1")).1
          ⟨2025, 9, 5⟩ "user1" FeatureType.CHAT 100 (some "req1")).1
        "user1" FeatureType.CHAT "req1" = 2 ∧
    (get_by_user_id_and_period
        (log_usage
          (log_usage c1_db ⟨2025, 9, 5⟩ "user1" FeatureType.CHAT 100
            (some "req1")).1
          ⟨2025, 9, 5⟩ "user1" FeatureType.CHAT 100 (some "req1")).1
        "user1" "2025-09").map (fun s => s.tokens_consumed) = some 200 := by
  constructor <;> decide

/-- C1 amended: `log_usage` alone is not idempotent (see
`c1_counterexample`); exactly-once recording holds only for the call sites
that wrap it in the caller-side guard (check `exists_by_request_id`, skip
the write when the entry exists) — the orchestrator and precedent-embed
completions and the ingestion/orchestrator/precedent timeout paths.  For the
guarded pattern, two sequential calls with the same non-empty
(user, feature, request_id) triple leave exactly one matching UsageLogEntry
and the second call is a complete no-op on the database, so the account
counters reflect only one charge.  The ingestion *completed* branch
(routers/ingestion.py lines 193-225) calls `log_usage` unguarded, so
repeated polls of a completed ingestion job remain double-charging there. -/
theorem c1_amended_guarded_idempotent (db : DB) (now : PyDateTime)
    (u : String) (ft : FeatureType) (t : ℤ) (rid : String)
    (p : TokenPricing) (hrid : rid ≠ "")
    (hp : get_current_pricing db now = some p)
    (h0 : count_usage_entries db u ft rid = 0) :
    count_usage_entries (guarded_log_usage db now u ft t rid).1 u ft rid = 1 ∧
    guarded_log_usage (guarded_log_usage db now u ft t rid).1 now u ft t rid =
      ((guarded_log_usage db now u ft t rid).1, none) := by
  have hex0 : exists_by_request_id db u ft rid = false := by
    rw [exists_by_request_id_eq_count db u ft rid hrid, h0]
    decide
  have hfirst : (guarded_log_usage db now u ft t rid).1 =
      (log_usage db now u ft t (some rid)).1 := by
    unfold guarded_log_usage
    rw [hex0]
    simp
  have hcount1 : count_usage_entries (guarded_log_usage db now u ft t rid).1
      u ft rid = 1 := by
    rw [hfirst, log_usage_count db now u ft t rid none none none none none
      none none none p hp, h0]
  refine ⟨hcount1, ?_⟩
  set db1 := (guarded_log_usage db now u ft t rid).1 with hdb1
  have hex1 : exists_by_request_id db1 u ft rid = true := by
    rw [exists_by_request_id_eq_count _ u ft rid hrid, hcount1]
    decide
  unfold guarded_log_usage
  rw [hex1]
  simp

/-- Concrete run of `c1_amended_guarded_idempotent` on `c1_db`: the first
guarded call records one entry for "req1", the second leaves the database
untouched. -/
theorem c1_amended_witness :
    ("req1" : String) ≠ "" ∧
    count_usage_entries c1_db "user1" FeatureType.CHAT "req1" = 0 ∧
    count_usage_entries
        (guarded_log_usage c1_db ⟨2025, 9, 5⟩ "user1" FeatureType.CHAT 100
          "req1").1 "user1" FeatureType.CHAT "req1" = 1 ∧
    guarded_log_usage
        (guarded_log_usage c1_db ⟨2025, 9, 5⟩ "user1" FeatureType.CHAT 100
          "req1").1 ⟨2025, 9, 5⟩ "user1" FeatureType.CHAT 100 "req1" =
      ((guarded_log_usage c1_db ⟨2025, 9, 5⟩ "user1" FeatureType.CHAT 100
          "req1").1, none) := by
  have h := c1_amended_guarded_idempotent c1_db ⟨2025, 9, 5⟩ "user1"
    FeatureType.CHAT 100 "req1" ⟨1, 1, ⟨2025, 1, 0⟩, false⟩
    (by decide) rfl (by decide)
  exact ⟨by decide, by decide, h.1, h.2⟩

/-! ### C2 : limit transition -/

theorem filter_map_eq {α : Type} (f : α → α) (p : α → Bool) (l : List α)
    (h : ∀ a, p (f a) = p a) : (l.map f).filter p = (l.filter p).map f := by
  rw [List.filter_map]
  congr 1
  apply List.filter_congr
  intro a _
  exact h a

theorem filter_eq_singleton_of_countP {α : Type} (p : α → Bool) (l : List α)
    (a : α) (hmem : a ∈ l) (ha : p a = true) (hcount : l.countP p = 1) :
    l.filter p = [a] := by
  have hlen : (l.filter p).length = 1 := by
    rw [← List.countP_eq_length_filter]
    exact hcount
  obtain ⟨b, hb⟩ := List.length_eq_one.mp hlen
  have hab : a ∈ l.filter p := List.mem_filter.mpr ⟨hmem, ha⟩
  rw [hb] at hab
  rw [hb, List.mem_singleton.mp hab]

theorem mem_of_get_by_user_id_and_period {db : DB} {u bp : String}
    {sub : UserSubscription}
    (h : get_by_user_id_and_period db u bp = some sub) :
    sub ∈ db.user_subscriptions := by
  have hfil : db.user_subscriptions.filter
      (fun s => decide (s.supabase_user_id = u) &&
        decide (s.billing_period = bp) && !s.is_deleted) = [sub] :=
    scalarOneOrNone_eq_some.mp h
  have : sub ∈ db.user_subscriptions.filter
      (fun s => decide (s.supabase_user_id = u) &&
        decide (s.billing_period = bp) && !s.is_deleted) := by
    rw [hfil]; exact List.mem_singleton_self _
  exact List.mem_of_mem_filter this

theorem increment_usage_found (db : DB) (sid : Nat) (tokens : ℤ) (cost : ℚ)
    (sub : UserSubscription) (hmem : sub ∈ db.user_subscriptions)
    (hsid : sub.id = sid)
    (hid : db.user_subscriptions.countP (fun r => decide (r.id = sid)) = 1) :
    (increment_usage db sid tokens cost).2 =
      some { sub with
             tokens_consumed := sub.tokens_consumed + tokens
             dollar_spent := sqlRound3 (sub.dollar_spent + cost) } ∧
    (increment_usage db sid tokens cost).1.user_subscriptions =
      db.user_subscriptions.map
        (fun r => if r.id = sid then
          { r with
            tokens_consumed := r.tokens_consumed + tokens
            dollar_spent := sqlRound3 (r.dollar_spent + cost) }
          else r) := by
  refine ⟨?_, rfl⟩
  simp only [increment_usage]
  have hpres : ∀ r : UserSubscription,
      (decide ((if r.id = sid then
        { r with
          tokens_consumed := r.tokens_consumed + tokens
          dollar_spent := sqlRound3 (r.dollar_spent + cost) }
        else r).id = sid)) = decide (r.id = sid) := by
    intro r
    by_cases hr : r.id = sid <;> simp [hr]
  rw [filter_map_eq _ _ _ hpres,
    filter_eq_singleton_of_countP _ _ sub hmem (by simp [hsid]) hid]
  simp [hsid, scalarOneOrNone]

/-- C2: for an account of the current billing period with
`tokens_consumed = token_limit - k` (k > 0), a `log_usage` call with
`tokens_used ≥ k` (pricing and tier configured, account ids unique)
succeeds with `limit_reached = true`, reports and stores status
LIMIT_REACHED on the account row, and every subsequent
`check_subscription_limit` within the same billing period is denied. -/
theorem c2_limit_transition (db : DB) (now : PyDateTime) (u : String)
    (ft : FeatureType) (sub : UserSubscription) (tier : SubscriptionTier)
    (p : TokenPricing) (k t : ℤ) (rid md : Option String) (lat : Option ℤ)
    (mu pj fl : Option String) (pt ct : Option ℤ) (stt : Option String)
    (hsub : get_by_user_id_and_period db u (get_current_billing_period now) =
      some sub)
    (hid : db.user_subscriptions.countP (fun r => decide (r.id = sub.id)) = 1)
    (htier : get_by_plan_name db sub.subscription_plan = some tier)
    (hcons : sub.tokens_consumed = tier.token_limit - k)
    (hk : 0 < k) (ht : k ≤ t)
    (hp : get_current_pricing db now = some p) :
    (log_usage db now u ft t rid md lat mu pj fl pt ct stt).2.success = true ∧
    (log_usage db now u ft t rid md lat mu pj fl pt ct stt).2.limit_reached =
      true ∧
    ((log_usage db now u ft t rid md lat mu pj fl pt ct stt).2.subscription).map
        (fun s => s.status) = some SubscriptionStatus.LIMIT_REACHED ∧
    (∀ now2 : PyDateTime,
      get_current_billing_period now2 = get_current_billing_period now →
      (get_by_user_id_and_period
          (log_usage db now u ft t rid md lat mu pj fl pt ct stt).1 u
          (get_current_billing_period now2)).map (fun s => s.status) =
        some SubscriptionStatus.LIMIT_REACHED ∧
      (check_subscription_limit
          (log_usage db now u ft t rid md lat mu pj fl pt ct stt).1 now2 u
          ft).2.allowed = false) := by
  have hmem : sub ∈ db.user_subscriptions := mem_of_get_by_user_id_and_period hsub
  have hsub1 : get_by_user_id_and_period
      (usage_log_create db u ft t
        (pyRound3 ((t : ℚ) / 1000 * p.usd_per_1k_tokens)) rid md lat mu pj fl
        pt ct stt).1 u (get_current_billing_period now) = some sub := hsub
  have hgc : get_or_create_user_subscription
      (usage_log_create db u ft t
        (pyRound3 ((t : ℚ) / 1000 * p.usd_per_1k_tokens)) rid md lat mu pj fl
        pt ct stt).1 now u "Free" none none =
      ((usage_log_create db u ft t
        (pyRound3 ((t : ℚ) / 1000 * p.usd_per_1k_tokens)) rid md lat mu pj fl
        pt ct stt).1, sub, false) := by
    simp only [get_or_create_user_subscription, hsub1]
  have hinc := increment_usage_found
    (usage_log_create db u ft t
      (pyRound3 ((t : ℚ) / 1000 * p.usd_per_1k_tokens)) rid md lat mu pj fl
      pt ct stt).1 sub.id t
    (pyRound3 ((t : ℚ) / 1000 * p.usd_per_1k_tokens)) sub hmem rfl hid
  have htier3 : get_by_plan_name
      (increment_usage
        (usage_log_create db u ft t
          (pyRound3 ((t : ℚ) / 1000 * p.usd_per_1k_tokens)) rid md lat mu pj
          fl pt ct stt).1 sub.id t
        (pyRound3 ((t : ℚ) / 1000 * p.usd_per_1k_tokens))).1
      sub.subscription_plan = some tier := htier
  have hcond : tier.token_limit ≤ sub.tokens_consumed + t := by
    rw [hcons]; omega
  have hlog : log_usage db now u ft t rid md lat mu pj fl pt ct stt =
      ((update_status
          (increment_usage
            (usage_log_create db u ft t
              (pyRound3 ((t : ℚ) / 1000 * p.usd_per_1k_tokens)) rid md lat mu
              pj fl pt ct stt).1 sub.id t
            (pyRound3 ((t : ℚ) / 1000 * p.usd_per_1k_tokens))).1 sub.id
          SubscriptionStatus.LIMIT_REACHED).1,
        { success := true, message := "Usage logged successfully"
          usage_log := some (usage_log_create db u ft t
            (pyRound3 ((t : ℚ) / 1000 * p.usd_per_1k_tokens)) rid md lat mu
            pj fl pt ct stt).2
          subscription := some
            { sub with
              tokens_consumed := sub.tokens_consumed + t
              dollar_spent := sqlRound3 (sub.dollar_spent +
                pyRound3 ((t : ℚ) / 1000 * p.usd_per_1k_tokens))
              status := SubscriptionStatus.LIMIT_REACHED }
          limit_reached := true }) := by
    simp only [log_usage, hp, hgc, hinc.1, htier3]
    rw [if_pos hcond]
  refine ⟨by rw [hlog], by rw [hlog], by rw [hlog]; rfl, ?_⟩
  intro now2 hbp2
  have hsubs4 : (update_status
      (increment_usage
        (usage_log_create db u ft t
          (pyRound3 ((t : ℚ) / 1000 * p.usd_per_1k_tokens)) rid md lat mu pj
          fl pt ct stt).1 sub.id t
        (pyRound3 ((t : ℚ) / 1000 * p.usd_per_1k_tokens))).1 sub.id
      SubscriptionStatus.LIMIT_REACHED).1.user_subscriptions =
      db.user_subscriptions.map
        (fun r =>
          if r.id = sub.id then
            { r with
              tokens_consumed := r.tokens_consumed + t
              dollar_spent := sqlRound3 (r.dollar_spent +
                pyRound3 ((t : ℚ) / 1000 * p.usd_per_1k_tokens))
              status := SubscriptionStatus.LIMIT_REACHED }
          else r) := by
    show (increment_usage
        (usage_log_create db u ft t
          (pyRound3 ((t : ℚ) / 1000 * p.usd_per_1k_tokens)) rid md lat mu pj
          fl pt ct stt).1 sub.id t
        (pyRound3 ((t : ℚ) / 1000 * p.usd_per_1k_tokens))).1.user_subscriptions.map
        _ = _
    rw [hinc.2, List.map_map]
    apply List.map_congr_left
    intro r _
    by_cases hr : r.id = sub.id <;> simp [hr]
  have hfil : db.user_subscriptions.filter
      (fun s => decide (s.supabase_user_id = u) &&
        decide (s.billing_period = get_current_billing_period now) &&
        !s.is_deleted) = [sub] := scalarOneOrNone_eq_some.mp hsub
  have hlookup4 : get_by_user_id_and_period
      (log_usage db now u ft t rid md lat mu pj fl pt ct stt).1 u
      (get_current_billing_period now2) =
      some { sub with
             tokens_consumed := sub.tokens_consumed + t
             dollar_spent := sqlRound3 (sub.dollar_spent +
               pyRound3 ((t : ℚ) / 1000 * p.usd_per_1k_tokens))
             status := SubscriptionStatus.LIMIT_REACHED } := by
    rw [hlog, hbp2]
    unfold get_by_user_id_and_period
    rw [hsubs4, filter_map_eq, hfil]
    · simp [scalarOneOrNone]
    · intro r
      by_cases hr : r.id = sub.id <;> simp [hr]
  refine ⟨by rw [hlookup4]; rfl, ?_⟩
  have hgc4 : get_or_create_user_subscription
      (log_usage db now u ft t rid md lat mu pj fl pt ct stt).1 now2 u "Free"
      none none =
      ((log_usage db now u ft t rid md lat mu pj fl pt ct stt).1,
        { sub with
          tokens_consumed := sub.tokens_consumed + t
          dollar_spent := sqlRound3 (sub.dollar_spent +
            pyRound3 ((t : ℚ) / 1000 * p.usd_per_1k_tokens))
          status := SubscriptionStatus.LIMIT_REACHED }, false) := by
    simp only [get_or_create_user_subscription, hlookup4]
  have htier4 : get_by_plan_name
      (log_usage db now u ft t rid md lat mu pj fl pt ct stt).1
      sub.subscription_plan = some tier := by
    rw [hlog]
    exact htier
  simp only [check_subscription_limit, hgc4]
  simp [htier4]

/-- C2 witness data: pricing at 1 USD per 1k tokens, a Free tier with a
1000-token limit, and an ACTIVE "user1" account at 950 tokens consumed in
period "2025-09". -/
def c2_db : DB :=
  { token_pricing := [⟨1, 1, ⟨2025, 1, 0⟩, false⟩]
    subscription_tiers := [⟨2, "Free", 1000, "Monthly", none, false⟩]
    user_subscriptions :=
      [⟨3, "user1", "Free", 950, 0, SubscriptionStatus.ACTIVE, "2025-09",
        ⟨2025, 9, 1⟩, none, none, ⟨2025, 9, 1⟩, false⟩]
    usage_log := [], next_id := 4 }

/-- Concrete run of `c2_limit_transition`: at 950 of 1000 tokens (k = 50), a
100-token `log_usage` flips the account to LIMIT_REACHED and a later
`check_subscription_limit` in the same period denies the request. -/
theorem c2_limit_transition_witness :
    (0 : ℤ) < 50 ∧ (50 : ℤ) ≤ 100 ∧
    (log_usage c2_db ⟨2025, 9, 5⟩ "user1" FeatureType.CHAT 100 none none none
        none none none none none none).2.limit_reached = true ∧
    (check_subscription_limit
        (log_usage c2_db ⟨2025, 9, 5⟩ "user1" FeatureType.CHAT 100 none none
          none none none none none none none).1 ⟨2025, 9, 20⟩ "user1"
        FeatureType.CHAT).2.allowed = false := by
  have h := c2_limit_transition c2_db ⟨2025, 9, 5⟩ "user1" FeatureType.CHAT
    ⟨3, "user1", "Free", 950, 0, SubscriptionStatus.ACTIVE, "2025-09",
      ⟨2025, 9, 1⟩, none, none, ⟨2025, 9, 1⟩, false⟩
    ⟨2, "Free", 1000, "Monthly", none, false⟩
    ⟨1, 1, ⟨2025, 1, 0⟩, false⟩ 50 100 none none none none none none none
    none none (by decide) (by decide) (by decide) (by decide) (by decide)
    (by decide) rfl
  exact ⟨by decide, by decide, h.2.1, (h.2.2.2 ⟨2025, 9, 20⟩ (by decide)).2⟩

end Audria
